import Mathlib

/-
Verification of the JNI bridge in src/app/src/main/jni/whisper/jni.c
(TalkToWhisper). The bridge is thin glue over the external whisper.cpp
engine: it marshals arguments, builds a whisper_full_params block, calls
the engine, and exposes the resulting segments through index accessors.

The engine itself (whisper.cpp / whisper.h implementations) is not part
of this repository, so engine-owned behaviour is modelled from the spec;
every such definition carries a doc comment starting with
"Modelled from the spec:". Everything else is a direct shallow embedding
of jni.c.
-/

namespace WhisperJNI

/-- Sampling strategy argument of whisper_full_default_params
(WHISPER_SAMPLING_GREEDY / WHISPER_SAMPLING_BEAM_SEARCH in whisper.h).
jni.c line 93 passes WHISPER_SAMPLING_GREEDY. -/
inductive SamplingStrategy
  | greedy
  | beamSearch
  deriving DecidableEq, Repr

/-- The fields of struct whisper_full_params that jni.c lines 93 to 104
assign, together with the strategy chosen at line 93. Fields of the C
struct that jni.c never touches are not observable through the bridge and
are omitted. -/
structure WhisperFullParams where
  strategy : SamplingStrategy
  print_realtime : Bool
  print_progress : Bool
  print_timestamps : Bool
  print_special : Bool
  no_timestamps : Bool
  translate : Bool
  language : Option String
  n_threads : Int
  offset_ms : Int
  no_context : Bool
  single_segment : Bool
  deriving DecidableEq, Repr

/-- Modelled from the spec: whisper_full_default_params (engine code, not in
src/) returns an engine-default parameter block whose sampling strategy is
the strategy given as argument. The values of the remaining defaults are
engine internals, abstracted here as the input record d. -/
def whisper_full_default_params (strategy : SamplingStrategy)
    (d : WhisperFullParams) : WhisperFullParams :=
  { d with strategy := strategy }

/-- jni.c lines 79 to 83: resolve the language string coming from Kotlin.
A NULL result of GetStringUTFChars is modelled as none. The C code sets
lang_param to lang_chars only when lang_chars is non-NULL and
strcmp(lang_chars, "auto") is nonzero; otherwise lang_param stays NULL
(auto-detect). strcmp equality is exact byte equality of the strings. -/
def resolveLangParam (lang_chars : Option String) : Option String :=
  match lang_chars with
  | none => none
  | some s => if s = "auto" then none else some s

/-- jni.c lines 93 to 104: the parameter block built by fullTranscribe,
starting from whisper_full_default_params(WHISPER_SAMPLING_GREEDY) and
overwriting the listed fields. lang_param is the already-resolved language
(result of resolveLangParam). -/
def fullTranscribeParams (engineDefaults : WhisperFullParams)
    (num_threads : Int) (lang_param : Option String) (translate : Bool) :
    WhisperFullParams :=
  let params := whisper_full_default_params SamplingStrategy.greedy engineDefaults
  { params with
    print_realtime := false
    print_progress := false
    print_timestamps := false
    print_special := false
    no_timestamps := true
    translate := translate
    language := lang_param
    n_threads := num_threads
    offset_ms := 0
    no_context := true
    single_segment := true }

/-- One transcribed segment as exposed by the jni.c accessors: start and
end timestamps in centiseconds (whisper_full_get_segment_t0/t1, jlong) and
the text payload (whisper_full_get_segment_text). -/
structure Segment where
  t0 : Int
  t1 : Int
  text : String
  deriving DecidableEq, Repr

/-- The part of a whisper_context observable through the jni.c accessors:
the ordered segment table of the most recent completed run. -/
structure ContextState where
  segments : List Segment
  deriving DecidableEq, Repr

/-- Modelled from the spec: the decoding outcome of one whisper_full call
(engine code, not in src/). Either success with the freshly decoded
segments, or failure with a non-zero status. -/
inductive WhisperFullResult
  | ok (segments : List Segment)
  | err (status : Int)
  deriving DecidableEq, Repr

/-- Modelled from the spec: the engine call whisper_full. On success
(status 0) the segment table of the context is replaced by the decoded
segments; failure is signaled by a non-zero status and, per the spec note
that no prior segment state is cleared on failure, the context is
returned unchanged. -/
def whisper_full (st : ContextState) (outcome : WhisperFullResult) :
    Int × ContextState :=
  match outcome with
  | WhisperFullResult.ok segs => (0, { segments := segs })
  | WhisperFullResult.err status => (status, st)

/-- The third argument of JNI ReleaseFloatArrayElements: 0 (commit) copies
the native buffer back into the managed array and frees it; JNI_ABORT
frees the native buffer without copying back. jni.c line 120 passes
JNI_ABORT. -/
inductive ReleaseMode
  | commit
  | abort
  deriving DecidableEq, Repr

/-- Contents of the managed float array after ReleaseFloatArrayElements,
given the managed contents, the native-copy contents at release time and
the release mode. -/
def releaseFloatArrayElements (managed nativeBuf : List Float)
    (mode : ReleaseMode) : List Float :=
  match mode with
  | ReleaseMode.commit => nativeBuf
  | ReleaseMode.abort => managed

/-- The diagnostic lines fullTranscribe can emit (jni.c lines 108 to 117),
carrying the data the format string prints. whisperPrintTimings stands for
the engine timing dump on the success path. -/
inductive LogLine
  | runningWhisperFull (n_threads : Int) (n_samples : Nat)
      (lang : Option String) (translate : Bool)
  | whisperFullFailed
  | whisperPrintTimings
  deriving DecidableEq, Repr

/-- Everything observable about one fullTranscribe call: the parameter
block passed to whisper_full, the samples passed, the status the engine
returned, the context state when the call returns, the contents of the
managed sample array after ReleaseFloatArrayElements, and the diagnostic
lines emitted. -/
structure FullTranscribeTrace where
  passedParams : WhisperFullParams
  passedSamples : List Float
  status : Int
  finalState : ContextState
  managedSamplesAfter : List Float
  logs : List LogLine
  deriving Repr

/-- Shallow embedding of fullTranscribe (jni.c lines 67 to 121).
GetFloatArrayElements yields a native copy of samples; whisper_full
receives it through a pointer to const, but the model does not track
engine writes, so the native-copy contents at release time are
abstracted as nativeAfter (any value). engineDefaults abstracts the
engine-default parameter block and outcome abstracts the decoding result;
the bridge branches on a non-zero status exactly as line 113 does, and
line 120 releases the array with JNI_ABORT on every path. -/
def fullTranscribe (st : ContextState) (num_threads : Int)
    (samples : List Float) (language_str : Option String) (translate : Bool)
    (engineDefaults : WhisperFullParams) (outcome : WhisperFullResult)
    (nativeAfter : List Float) : FullTranscribeTrace :=
  let lang_param := resolveLangParam language_str
  let params := fullTranscribeParams engineDefaults num_threads lang_param translate
  let statusState := whisper_full st outcome
  let status := statusState.1
  let finalSt := statusState.2
  let tailLogs :=
    if status ≠ 0 then [LogLine.whisperFullFailed]
    else [LogLine.whisperPrintTimings]
  { passedParams := params
    passedSamples := samples
    status := status
    finalState := finalSt
    managedSamplesAfter :=
      releaseFloatArrayElements samples nativeAfter ReleaseMode.abort
    logs := LogLine.runningWhisperFull num_threads samples.length lang_param
        params.translate :: tailLogs }

/-- jni.c getTextSegmentCount (lines 125 to 132): forwards
whisper_full_n_segments, the number of segments of the most recent run. -/
def getTextSegmentCount (st : ContextState) : Nat :=
  st.segments.length

/-- jni.c getTextSegment (lines 136 to 143): forwards
whisper_full_get_segment_text. An out-of-range index is undefined
behaviour in C and is modelled as none. -/
def getTextSegment (st : ContextState) (index : Nat) : Option String :=
  (st.segments.get? index).map Segment.text

/-- jni.c getTextSegmentT0 (lines 147 to 154): forwards
whisper_full_get_segment_t0, the segment start timestamp in centiseconds.
An out-of-range index is undefined behaviour in C and is modelled as
none. -/
def getTextSegmentT0 (st : ContextState) (index : Nat) : Option Int :=
  (st.segments.get? index).map Segment.t0

/-- jni.c getTextSegmentT1 (lines 158 to 165): forwards
whisper_full_get_segment_t1, the segment end timestamp in centiseconds.
An out-of-range index is undefined behaviour in C and is modelled as
none. -/
def getTextSegmentT1 (st : ContextState) (index : Nat) : Option Int :=
  (st.segments.get? index).map Segment.t1

/-- Modelled from the spec: well-formed engine output. Centisecond
timestamps of the segment list are monotonically non-decreasing across
increasing index, and each segment starts no later than it ends. -/
def WellFormedSegments (segs : List Segment) : Prop :=
  (∀ i : Fin segs.length, (segs.get i).t0 ≤ (segs.get i).t1) ∧
  (∀ i : Fin segs.length, ∀ j : Fin segs.length,
    (j : Nat) = (i : Nat) + 1 → (segs.get i).t0 ≤ (segs.get j).t0)

instance instDecWellFormedSegments (segs : List Segment) :
    Decidable (WellFormedSegments segs) := by
  unfold WellFormedSegments
  exact inferInstance

/-- The lines initContext can log (jni.c lines 35, 43, 45) and the line
freeContext logs (line 61). -/
inductive InitLogLine
  | loadingModel (path : String)
  | initFailed
  | initOk
  deriving DecidableEq, Repr

/-- Everything observable about one initContext call: the returned handle
(none models the NULL jlong), the number of GetStringUTFChars and
ReleaseStringUTFChars calls made on the model-path string, and the log
lines emitted. -/
structure InitContextTrace where
  handle : Option ContextState
  charsAcquired : Nat
  charsReleased : Nat
  logs : List InitLogLine
  deriving DecidableEq, Repr

/-- Shallow embedding of initContext (jni.c lines 28 to 49). The engine
call whisper_init_from_file_with_params is not in src/, so its result is
abstracted as loadResult: some st when the model loads, none when the
path is unreadable or the file is not a recognized model. The bridge
acquires the path chars once, releases them once on every path, and
returns the context pointer cast to jlong (NULL when loading failed). -/
def initContext (model_path : String) (loadResult : Option ContextState) :
    InitContextTrace :=
  { handle := loadResult
    charsAcquired := 1
    charsReleased := 1
    logs := [InitLogLine.loadingModel model_path] ++
      (match loadResult with
       | none => [InitLogLine.initFailed]
       | some _ => [InitLogLine.initOk]) }

/-- The observable actions of one freeContext call (jni.c lines 53 to 63):
the engine free routine and the confirmation log line. -/
inductive FreeEvent
  | whisperFree
  | logContextFreed
  deriving DecidableEq, BEq, Repr

/-- Shallow embedding of freeContext (jni.c lines 53 to 63): the NULL
handle (none) performs no action at all; a non-NULL handle calls
whisper_free once and logs once. -/
def freeContext (context : Option ContextState) : List FreeEvent :=
  match context with
  | none => []
  | some _ => [FreeEvent.whisperFree, FreeEvent.logContextFreed]

/-- Modelled from the spec: whisper_print_system_info (engine code, not in
src/) returns a static, session-independent, non-empty capability/build
description string listing enabled CPU feature sets; the value shown here
is a representative constant. -/
def whisper_print_system_info : String :=
  "AVX = 0 | AVX2 = 0 | NEON = 1 | F16C = 0 | FMA = 1 | BLAS = 0"

/-- Shallow embedding of getSystemInfo (jni.c lines 169 to 175): it takes
no session handle and forwards whisper_print_system_info unchanged. The
Unit argument stands for the argument-free JNI entry point; the type shows
that no ContextState is consumed. -/
def getSystemInfo (_u : Unit) : String :=
  whisper_print_system_info

/-- A concrete engine-default parameter block used to instantiate the
universally quantified engineDefaults argument in witness theorems. Its
field values are deliberately the opposite of what fullTranscribe forces,
so instantiations show the overwrites really happen. -/
def exampleDefaults : WhisperFullParams :=
  { strategy := SamplingStrategy.beamSearch
    print_realtime := true
    print_progress := true
    print_timestamps := true
    print_special := true
    no_timestamps := false
    translate := false
    language := some "fr"
    n_threads := 1
    offset_ms := 7
    no_context := false
    single_segment := false }

/-- C1: every call to fullTranscribe passes the engine a parameter block
with single-segment mode enabled, timestamp token emission disabled,
the greedy non-beam sampling strategy and prior-context reuse disabled,
for every context state, thread count, sample buffer, language string,
translate flag, engine-default block and decoding outcome. -/
theorem C1_fixed_low_latency_profile
    (st : ContextState) (num_threads : Int) (samples : List Float)
    (language_str : Option String) (translate : Bool)
    (engineDefaults : WhisperFullParams) (outcome : WhisperFullResult)
    (nativeAfter : List Float) :
    (fullTranscribe st num_threads samples language_str translate
      engineDefaults outcome nativeAfter).passedParams.single_segment = true ∧
    (fullTranscribe st num_threads samples language_str translate
      engineDefaults outcome nativeAfter).passedParams.no_timestamps = true ∧
    (fullTranscribe st num_threads samples language_str translate
      engineDefaults outcome nativeAfter).passedParams.strategy =
        SamplingStrategy.greedy ∧
    (fullTranscribe st num_threads samples language_str translate
      engineDefaults outcome nativeAfter).passedParams.no_context = true :=
  ⟨rfl, rfl, rfl, rfl⟩

/-- C2: when the engine call returns a non-zero status, fullTranscribe
still returns normally (it is a total function of the outcome), emits the
whisper_full failed diagnostic, and leaves the context state exactly as it
was, so the accessors still observe the segment data of the previous
successful run. -/
theorem C2_failure_keeps_prior_segments
    (st : ContextState) (num_threads : Int) (samples : List Float)
    (language_str : Option String) (translate : Bool)
    (engineDefaults : WhisperFullParams) (status : Int)
    (nativeAfter : List Float) (h : status ≠ 0) :
    (fullTranscribe st num_threads samples language_str translate
      engineDefaults (WhisperFullResult.err status) nativeAfter).finalState
        = st ∧
    LogLine.whisperFullFailed ∈
      (fullTranscribe st num_threads samples language_str translate
        engineDefaults (WhisperFullResult.err status) nativeAfter).logs ∧
    getTextSegmentCount
      (fullTranscribe st num_threads samples language_str translate
        engineDefaults (WhisperFullResult.err status) nativeAfter).finalState
      = getTextSegmentCount st := by
  refine ⟨rfl, ?_, rfl⟩
  simp [fullTranscribe, whisper_full, h]

/-- C2 witness: a concrete failing run with status 1 preserves a one
segment context. -/
theorem C2_failure_keeps_prior_segments_witness :
    (1 : Int) ≠ 0 ∧
    (fullTranscribe ⟨[⟨0, 5, "hi"⟩]⟩ 4 [] (some "en") false
      exampleDefaults (WhisperFullResult.err 1) []).finalState
      = ⟨[⟨0, 5, "hi"⟩]⟩ :=
  ⟨by decide,
    (C2_failure_keeps_prior_segments ⟨[⟨0, 5, "hi"⟩]⟩ 4 [] (some "en") false
      exampleDefaults 1 [] (by decide)).1⟩

/-- C3: fullTranscribe maps the reserved language string auto to
automatic language detection (the language field passed to the engine is
none, the embedding of the NULL pointer), and passes every other language
string through to the engine unchanged. -/
theorem C3_language_sentinel_mapping
    (st : ContextState) (num_threads : Int) (samples : List Float)
    (translate : Bool) (engineDefaults : WhisperFullParams)
    (outcome : WhisperFullResult) (nativeAfter : List Float) :
    (fullTranscribe st num_threads samples (some "auto") translate
      engineDefaults outcome nativeAfter).passedParams.language = none ∧
    ∀ s : String, s ≠ "auto" →
      (fullTranscribe st num_threads samples (some s) translate
        engineDefaults outcome nativeAfter).passedParams.language = some s := by
  constructor
  · simp [fullTranscribe, fullTranscribeParams, resolveLangParam]
  · intro s hs
    simp [fullTranscribe, fullTranscribeParams, resolveLangParam, hs]

/-- C3 witness: the language string en is passed through unchanged. -/
theorem C3_language_sentinel_mapping_witness :
    "en" ≠ "auto" ∧
    (fullTranscribe ⟨[]⟩ 4 [] (some "en") false exampleDefaults
      (WhisperFullResult.ok []) []).passedParams.language = some "en" :=
  ⟨by decide,
    (C3_language_sentinel_mapping ⟨[]⟩ 4 [] false exampleDefaults
      (WhisperFullResult.ok []) []).2 "en" (by decide)⟩

/-- C4: after a successful run whose engine output is well formed, the
accessors observe monotone timestamps: for every index they return a start
no later than the end of the same segment, and a start no later than the
start of the next segment. -/
theorem C4_timestamps_monotone
    (st : ContextState) (num_threads : Int) (samples : List Float)
    (language_str : Option String) (translate : Bool)
    (engineDefaults : WhisperFullParams) (segs : List Segment)
    (nativeAfter : List Float) (hwf : WellFormedSegments segs) :
    (∀ i : Nat, ∀ a b : Int,
      getTextSegmentT0 (fullTranscribe st num_threads samples language_str
        translate engineDefaults (WhisperFullResult.ok segs)
        nativeAfter).finalState i = some a →
      getTextSegmentT1 (fullTranscribe st num_threads samples language_str
        translate engineDefaults (WhisperFullResult.ok segs)
        nativeAfter).finalState i = some b →
      a ≤ b) ∧
    (∀ i : Nat, ∀ a b : Int,
      getTextSegmentT0 (fullTranscribe st num_threads samples language_str
        translate engineDefaults (WhisperFullResult.ok segs)
        nativeAfter).finalState i = some a →
      getTextSegmentT0 (fullTranscribe st num_threads samples language_str
        translate engineDefaults (WhisperFullResult.ok segs)
        nativeAfter).finalState (i + 1) = some b →
      a ≤ b) := by
  have hstate : (fullTranscribe st num_threads samples language_str
      translate engineDefaults (WhisperFullResult.ok segs)
      nativeAfter).finalState = ⟨segs⟩ := rfl
  rw [hstate]
  constructor
  · intro i a b h0 h1
    simp only [getTextSegmentT0, getTextSegmentT1, Option.map_eq_some'] at h0 h1
    obtain ⟨sa, hga, hta⟩ := h0
    obtain ⟨sb, hgb, htb⟩ := h1
    rw [hga] at hgb
    cases hgb
    obtain ⟨hlt, hget⟩ := List.get?_eq_some.mp hga
    subst hget hta htb
    exact hwf.1 ⟨i, hlt⟩
  · intro i a b h0 h1
    simp only [getTextSegmentT0, Option.map_eq_some'] at h0 h1
    obtain ⟨sa, hga, hta⟩ := h0
    obtain ⟨sb, hgb, htb⟩ := h1
    obtain ⟨hlt, hget⟩ := List.get?_eq_some.mp hga
    obtain ⟨hlt1, hget1⟩ := List.get?_eq_some.mp hgb
    subst hget hget1 hta htb
    exact hwf.2 ⟨i, hlt⟩ ⟨i + 1, hlt1⟩ rfl

/-- C4 witness: a concrete successful run with two well formed segments,
checked at index 0. -/
theorem C4_timestamps_monotone_witness :
    WellFormedSegments [⟨0, 5, "a"⟩, ⟨5, 9, "b"⟩] ∧
    getTextSegmentT0 (fullTranscribe ⟨[]⟩ 4 [] none false exampleDefaults
      (WhisperFullResult.ok [⟨0, 5, "a"⟩, ⟨5, 9, "b"⟩]) []).finalState 0
      = some 0 ∧
    getTextSegmentT1 (fullTranscribe ⟨[]⟩ 4 [] none false exampleDefaults
      (WhisperFullResult.ok [⟨0, 5, "a"⟩, ⟨5, 9, "b"⟩]) []).finalState 0
      = some 5 ∧
    (0 : Int) ≤ 5 :=
  ⟨by decide, rfl, rfl,
    (C4_timestamps_monotone ⟨[]⟩ 4 [] none false exampleDefaults
      [⟨0, 5, "a"⟩, ⟨5, 9, "b"⟩] [] (by decide)).1 0 0 5 rfl rfl⟩

/-- C5: initContext returns exactly the handle the engine load produced,
so the handle is non-null precisely when the engine loaded the model; on
a failed load the null sentinel comes back, and the model-path chars are
released as often as they were acquired on every path, so the bridge
itself leaks no per-call state. -/
theorem C5_init_handle_iff_load
    (model_path : String) (loadResult : Option ContextState) :
    (initContext model_path loadResult).handle = loadResult ∧
    ((initContext model_path loadResult).handle.isSome ↔ loadResult.isSome) ∧
    (initContext model_path none).handle = none ∧
    (initContext model_path loadResult).charsReleased
      = (initContext model_path loadResult).charsAcquired :=
  ⟨rfl, Iff.rfl, rfl, rfl⟩

/-- C6: freeContext with the null handle performs no action at all, and
with a non-null handle it calls the engine free routine exactly once. -/
theorem C6_freeContext_null_noop :
    freeContext none = [] ∧
    ∀ c : ContextState,
      (freeContext (some c)).count FreeEvent.whisperFree = 1 :=
  ⟨rfl, fun _ => rfl⟩

/-- C7: the translate flag is forwarded to the engine unchanged: the
parameter block passed to whisper_full requests translation exactly when
the caller passed true. -/
theorem C7_translate_forwarded
    (st : ContextState) (num_threads : Int) (samples : List Float)
    (language_str : Option String) (translate : Bool)
    (engineDefaults : WhisperFullParams) (outcome : WhisperFullResult)
    (nativeAfter : List Float) :
    (fullTranscribe st num_threads samples language_str translate
      engineDefaults outcome nativeAfter).passedParams.translate
      = translate :=
  rfl

/-- C8: getSystemInfo consumes no session handle (its argument type is
Unit, independent of any ContextState), returns the same string on every
call, and that string is non-empty. -/
theorem C8_systemInfo_pure :
    (∀ u v : Unit, getSystemInfo u = getSystemInfo v) ∧
    getSystemInfo () ≠ "" :=
  ⟨fun _ _ => rfl, by decide⟩

/-- C9: the managed sample array is unchanged when fullTranscribe
returns, whatever the decoding outcome (success or failure) and whatever
the native copy holds at release time, because the release uses abort
semantics and never copies back. -/
theorem C9_samples_unchanged
    (st : ContextState) (num_threads : Int) (samples : List Float)
    (language_str : Option String) (translate : Bool)
    (engineDefaults : WhisperFullParams) (outcome : WhisperFullResult)
    (nativeAfter : List Float) :
    (fullTranscribe st num_threads samples language_str translate
      engineDefaults outcome nativeAfter).managedSamplesAfter = samples :=
  rfl

/-- C10: the auto sentinel match is an exact case-sensitive comparison:
the variants Auto and AUTO are passed through as language codes, a null
language string selects auto-detect, and the resolved language is the
auto-detect null exactly when the input string is byte-for-byte auto. -/
theorem C10_auto_match_case_sensitive :
    resolveLangParam (some "Auto") = some "Auto" ∧
    resolveLangParam (some "AUTO") = some "AUTO" ∧
    resolveLangParam none = none ∧
    ∀ s : String, (resolveLangParam (some s) = none ↔ s = "auto") := by
  refine ⟨by decide, by decide, rfl, fun s => ?_⟩
  unfold resolveLangParam
  by_cases h : s = "auto" <;> simp [h]

end WhisperJNI
